import Mathlib

/-!
Verification development for the Streamlit-Theta slide-editor core.

The subject is the in-browser PowerPoint-style editor:
* `src/streamlit_theta/editor/utils/powerpoint/core.py` emits the main
  JavaScript editor class (`PowerPointEditor`): geometry (drag / resize with
  zoom), scene mutations (add / remove / duplicate slide, delete / copy /
  paste element), a linear undo history, keyboard shortcuts and JSON export.
* `src/streamlit_theta/editor/powerpoint.py` is the Python entry point; it
  embeds its own, simpler inline JavaScript (length-based slide ids) and
  returns a value across the component boundary.

The definitions below are a shallow embedding of that code.  JavaScript
numbers are modelled as `Rat`; `JSON.parse(JSON.stringify(x))` deep copies
are the identity on immutable Lean values; DOM-only statements (renders,
cursor styles) have no model.  `Math.random()`-based id generation is
modelled by passing the generated id string(s) explicitly.
-/

namespace Theta

/-- A 2D point (pointer position or element position), slide-local units. -/
structure Pt where
  x : Rat
  y : Rat
  deriving DecidableEq, Repr

/-- One `mousemove` step of a drag gesture
(`core.py`, `startDrag`, lines 242-255): the screen-space pointer delta is
divided by the zoom level and added to the element position captured at
`mousedown` (`elementStart`), then clamped at 0 on each axis. -/
def dragMove (elementStart dragStart pointerNow : Pt) (zoomLevel : Rat) : Pt :=
  let deltaX := (pointerNow.x - dragStart.x) / zoomLevel
  let deltaY := (pointerNow.y - dragStart.y) / zoomLevel
  ⟨max 0 (elementStart.x + deltaX), max 0 (elementStart.y + deltaY)⟩

/-- A whole drag gesture (`core.py`, `startDrag`, lines 235-268): the
`mousemove` handler is a closure over `elementStart` and `dragStart`, so
every move recomputes the position from the gesture-start values; the live
position (the fold accumulator) is overwritten and never read. -/
def dragGesture (elementStart dragStart : Pt) (zoomLevel : Rat)
    (moves : List Pt) : Pt :=
  moves.foldl (fun _ pointerNow => dragMove elementStart dragStart pointerNow zoomLevel)
    elementStart

/-- Element geometry as read at the start of a resize gesture. -/
structure Geom where
  x : Rat
  y : Rat
  width : Rat
  height : Rat
  deriving DecidableEq, Repr

/-- One `mousemove` step of a resize gesture (`core.py`, `handleResize`,
lines 302-334).  `direction` is one of the 8 handle tags; the JavaScript
`direction.includes('e')` is character containment for these one- and
two-character tags, modelled as containment in the string's character list.
`deltaX`/`deltaY` are the screen deltas already divided by the zoom level
(`startResize`, lines 282-283).  The `e` branch runs before the `w` branch
(resp. `s` before `n`), the later assignment winning, exactly as in the
source. -/
def handleResize (direction : String) (deltaX deltaY : Rat) (start : Geom) : Geom :=
  let newWidth1 := if direction.toList.contains 'e'
    then max 20 (start.width + deltaX) else start.width
  let newWidth2 := if direction.toList.contains 'w'
    then max 20 (start.width - deltaX) else newWidth1
  let newLeft := if direction.toList.contains 'w'
    then start.x + deltaX else start.x
  let newHeight1 := if direction.toList.contains 's'
    then max 20 (start.height + deltaY) else start.height
  let newHeight2 := if direction.toList.contains 'n'
    then max 20 (start.height - deltaY) else newHeight1
  let newTop := if direction.toList.contains 'n'
    then start.y + deltaY else start.y
  { x := max 0 newLeft, y := max 0 newTop, width := newWidth2, height := newHeight2 }

/-- A slide element.  The source keeps elements as plain JavaScript objects
dispatched on the `type` string (`text` / `image` / `shape`); the common
fields are always present, the variant fields are present only on the
variant that sets them, modelled as `Option` (`none` = key absent). -/
structure Element where
  type : String
  id : String
  x : Rat
  y : Rat
  width : Rat
  height : Rat
  content : Option String := none
  fontSize : Option Rat := none
  fontFamily : Option String := none
  color : Option String := none
  bold : Option Bool := none
  italic : Option Bool := none
  underline : Option Bool := none
  align : Option String := none
  lineHeight : Option String := none
  src : Option String := none
  fit : Option String := none
  shape : Option String := none
  borderRadius : Option String := none
  deriving DecidableEq, Repr

/-- A slide (`core.py` `getDefaultSlides` / `addSlide` object shape).
`transition` is absent from the slides built by `powerpoint.py`, hence
optional. -/
structure Slide where
  id : String
  title : String
  elements : List Element
  background : String
  transition : Option String := none
  deriving DecidableEq, Repr

/-- A presentation is the ordered slide list (`this.slides`). -/
abbrev Presentation := List Slide

/-- Placeholder used with `List.getD`; JavaScript would yield `undefined`
at an out-of-range index, which is unreachable in the states the theorems
quantify over. -/
def dummyElement : Element :=
  { type := "", id := "", x := 0, y := 0, width := 0, height := 0 }

/-- Placeholder slide for `List.getD` (see `dummyElement`). -/
def dummySlide : Slide :=
  { id := "", title := "", elements := [], background := "" }

/-- The mutable fields of the `PowerPointEditor` class
(`core.py`, constructor, lines 10-24). -/
structure EditorState where
  slides : Presentation
  currentSlide : Nat
  selectedElement : Option String
  zoomLevel : Rat
  isDragging : Bool
  isResizing : Bool
  dragStart : Pt
  elementStart : Pt
  history : List Presentation
  historyIndex : Int
  clipboard : Option Element
  deriving DecidableEq, Repr

/-- `getDefaultSlides` (`core.py`, lines 26-41). -/
def getDefaultSlides : Presentation :=
  [{ id := "slide_1", title := "Title Slide",
     elements := [{ type := "text", id := "text_1",
                    content := some "Click to edit title",
                    x := 100, y := 100, width := 600, height := 80,
                    fontSize := some 36, fontFamily := some "Arial",
                    color := some "#222222",
                    bold := some true, italic := some false,
                    underline := some false }],
     background := "#ffffff", transition := some "fade" }]

/-- `saveState` (`core.py`, lines 526-535): truncate the history to the
entries up to and including `historyIndex`, push a deep copy of the current
slides, increment the index; if the stack then exceeds 50 entries, evict
the oldest and decrement the index.  (`historyIndex` is always ≥ -1 in
reachable states, so `Int.toNat` agrees with the JavaScript `slice`.) -/
def saveState (st : EditorState) : EditorState :=
  let truncated := st.history.take (st.historyIndex + 1).toNat ++ [st.slides]
  if truncated.length > 50 then
    { st with history := truncated.drop 1, historyIndex := st.historyIndex + 1 - 1 }
  else
    { st with history := truncated, historyIndex := st.historyIndex + 1 }

/-- `undo` (`core.py`, lines 537-544): no-op unless `historyIndex > 0`. -/
def undo (st : EditorState) : EditorState :=
  if 0 < st.historyIndex then
    { st with historyIndex := st.historyIndex - 1,
              slides := st.history.getD (st.historyIndex - 1).toNat [] }
  else st

/-- `redo` (`core.py`, lines 546-553): no-op unless
`historyIndex < history.length - 1`. -/
def redo (st : EditorState) : EditorState :=
  if st.historyIndex < (st.history.length : Int) - 1 then
    { st with historyIndex := st.historyIndex + 1,
              slides := st.history.getD (st.historyIndex + 1).toNat [] }
  else st

/-- Constructor plus `init` (`core.py`, lines 10-24 and 43-48): of the
`init` steps only `saveState` touches the model (the rest render).  A
missing/null `initialSlides` argument falls back to the defaults. -/
def editorInit (initialSlides : Option Presentation) : EditorState :=
  saveState
    { slides := initialSlides.getD getDefaultSlides
      currentSlide := 0
      selectedElement := none
      zoomLevel := 1
      isDragging := false
      isResizing := false
      dragStart := ⟨0, 0⟩
      elementStart := ⟨0, 0⟩
      history := []
      historyIndex := -1
      clipboard := none }

/-- `selectElement` (`core.py`, lines 336-340), render calls dropped. -/
def selectElement (elementId : String) (st : EditorState) : EditorState :=
  { st with selectedElement := some elementId }

/-- `clearSelection` (`core.py`, lines 342-346). -/
def clearSelection (st : EditorState) : EditorState :=
  { st with selectedElement := none }

/-- `selectSlide` (`core.py`, lines 348-353). -/
def selectSlide (index : Nat) (st : EditorState) : EditorState :=
  clearSelection { st with currentSlide := index }

/-- `addSlide` (`core.py`, lines 419-432).  `fresh` stands for the
`Math.random()`-derived string returned by `generateId()`. -/
def addSlide (fresh : String) (st : EditorState) : EditorState :=
  let newSlide : Slide :=
    { id := "slide_" ++ fresh
      title := "Slide " ++ toString (st.slides.length + 1)
      elements := []
      background := "#ffffff"
      transition := some "fade" }
  saveState (selectSlide st.slides.length { st with slides := st.slides ++ [newSlide] })

/-- `removeSlide` (`core.py`, lines 434-442): rejected outright when at
most one slide remains; otherwise splice out the current slide, move the
pointer to `max(0, currentSlide - 1)` (`Nat` subtraction), snapshot. -/
def removeSlide (st : EditorState) : EditorState :=
  if st.slides.length ≤ 1 then st
  else
    saveState { st with slides := st.slides.eraseIdx st.currentSlide,
                        currentSlide := st.currentSlide - 1 }

/-- The element-id reassignment loop of `duplicateSlide`
(`core.py`, lines 450-452): `forEach` walks the copied elements in order,
giving the element at offset `i` the id `el.type + '_' + generateId()`;
`gen k` stands for the `k`-th `generateId()` result of the gesture. -/
def renameElems (gen : Nat → String) : Nat → List Element → List Element
  | _, [] => []
  | k, el :: rest =>
      { el with id := el.type ++ "_" ++ gen k } :: renameElems gen (k + 1) rest

/-- The duplicated slide built by `duplicateSlide` (`core.py`, lines
444-452): a deep copy of the current slide with a fresh slide id (first
`generateId()` call, `gen 0`), the title suffixed with `' (Copy)'`, and
fresh element ids (subsequent calls, `gen 1`, `gen 2`, ...). -/
def dupSlideOf (gen : Nat → String) (st : EditorState) : Slide :=
  let original := st.slides.getD st.currentSlide dummySlide
  { original with
      id := "slide_" ++ gen 0
      title := original.title ++ " (Copy)"
      elements := renameElems gen 1 original.elements }

/-- `duplicateSlide` (`core.py`, lines 444-458): insert the copy right
after the current slide, select it, snapshot. -/
def duplicateSlide (gen : Nat → String) (st : EditorState) : EditorState :=
  saveState (selectSlide (st.currentSlide + 1)
    { st with slides := st.slides.insertIdx (st.currentSlide + 1) (dupSlideOf gen st) })

/-- `deleteSelectedElement` (`core.py`, lines 409-417): no-op without a
selection; otherwise filter the element out of the current slide, clear the
selection, snapshot. -/
def deleteSelectedElement (st : EditorState) : EditorState :=
  match st.selectedElement with
  | none => st
  | some sel =>
      let dropSel := fun (s : Slide) =>
        { s with elements := s.elements.filter (fun el => el.id != sel) }
      saveState (clearSelection
        { st with slides := st.slides.modify dropSel st.currentSlide })

/-- `copy` (`core.py`, lines 555-560): deep-copy the selected element of
the current slide into the clipboard.  (If the selected id were absent from
the current slide the JavaScript would throw on
`JSON.parse(JSON.stringify(undefined))`; selection is always on the current
slide, so that branch is modelled as a no-op.) -/
def copySelected (st : EditorState) : EditorState :=
  match st.selectedElement with
  | none => st
  | some sel =>
      match (st.slides.getD st.currentSlide dummySlide).elements.find?
          (fun el => el.id == sel) with
      | some el => { st with clipboard := some el }
      | none => st

/-- `paste` (`core.py`, lines 562-574): no-op on an empty clipboard;
otherwise push a copy with a fresh id (`fresh` = the `generateId()` result)
offset by (+20, +20), select it, snapshot. -/
def pasteClipboard (fresh : String) (st : EditorState) : EditorState :=
  match st.clipboard with
  | none => st
  | some el =>
      let newElement := { el with id := el.type ++ "_" ++ fresh,
                                  x := el.x + 20, y := el.y + 20 }
      let pushNew := fun (s : Slide) => { s with elements := s.elements ++ [newElement] }
      saveState (selectElement newElement.id
        { st with slides := st.slides.modify pushNew st.currentSlide })

/-- The fields of a DOM keydown event that
`handleKeyboardShortcuts` reads (plus `shiftKey`, which it does not). -/
structure KeyEvent where
  key : String
  ctrlKey : Bool
  metaKey : Bool
  shiftKey : Bool
  deriving DecidableEq, Repr

/-- `handleKeyboardShortcuts` (`core.py`, lines 495-524): with Ctrl or Meta
held, `switch (e.key)` dispatches on the exact key string (`'z'`, `'y'`,
`'c'`, `'v'`, `'s'`; `'s'` only triggers the JSON download, which has no
model-state effect); afterwards, independently, `Delete` with a selection
deletes the selected element.  There is no text-editing guard in the
source (the `enterTextEditMode` method referenced at line 164 is never
defined), and no `Backspace` case. -/
def handleKeyboardShortcuts (fresh : String) (e : KeyEvent) (st : EditorState) :
    EditorState :=
  let st1 :=
    if e.ctrlKey || e.metaKey then
      match e.key with
      | "z" => undo st
      | "y" => redo st
      | "c" => copySelected st
      | "v" => pasteClipboard fresh st
      | "s" => st
      | _ => st
    else st
  if e.key == "Delete" && st1.selectedElement.isSome then
    deleteSelectedElement st1
  else st1

/-- All slide and element ids of one slide. -/
def slideIds (s : Slide) : List String :=
  s.id :: s.elements.map Element.id

/-- All slide and element ids of a presentation. -/
def allIds (slides : Presentation) : List String :=
  (slides.map slideIds).flatten

/-! ### The inline editor of `powerpoint.py`

`powerpoint.py` does not use `core.py`; its HTML embeds its own, simpler
script (lines 133-343) with module-level `slides` / `currentSlide` /
`selectedElement` / `zoomLevel` variables. -/

/-- The mutable variables of the `powerpoint.py` inline script
(lines 134-137). -/
structure PyState where
  slides : Presentation
  currentSlide : Nat
  selectedElement : Option String
  zoomLevel : Rat
  deriving DecidableEq, Repr

/-- The default slide list of `powerpoint_editor`
(`powerpoint.py`, lines 52-76), used when the caller passes no slides. -/
def pyDefaultSlides : Presentation :=
  [{ id := "slide_1", title := "Title Slide",
     elements := [{ type := "text", id := "text_1",
                    content := some "Double-click to edit title",
                    x := 100, y := 100, width := 600, height := 80,
                    fontSize := some 36, fontFamily := some "Arial",
                    color := some "#222222",
                    bold := some true, italic := some false,
                    underline := some false }],
     background := "#f8fafc" }]

/-- Initial script state of one `powerpoint_editor` invocation
(`powerpoint.py`, lines 52-76 and 134-137). -/
def pyInit (slides : Option Presentation) : PyState :=
  { slides := slides.getD pyDefaultSlides
    currentSlide := 0
    selectedElement := none
    zoomLevel := 1 }

/-- The slide appended by the `ppt-add-slide` click handler
(`powerpoint.py`, line 233): its id is `'slide_' + (slides.length + 1)`,
derived from the current slide COUNT, not from the existing ids. -/
def pyNewSlide (st : PyState) : Slide :=
  { id := "slide_" ++ toString (st.slides.length + 1)
    title := "New Slide"
    elements := []
    background := "#fff" }

/-- `ppt-add-slide` click handler (`powerpoint.py`, lines 232-237). -/
def pyAddSlide (st : PyState) : PyState :=
  { st with slides := st.slides ++ [pyNewSlide st],
            currentSlide := st.slides.length }

/-- `ppt-remove-slide` click handler (`powerpoint.py`, lines 238-244). -/
def pyRemoveSlide (st : PyState) : PyState :=
  if st.slides.length ≤ 1 then st
  else { st with slides := st.slides.eraseIdx st.currentSlide,
                 currentSlide := st.currentSlide - 1 }

/-- Slide-thumbnail click handler (`powerpoint.py`, line 145). -/
def pySelectSlide (index : Nat) (st : PyState) : PyState :=
  { st with currentSlide := index }

/-- The value `powerpoint_editor` returns across the component boundary
(`powerpoint.py`, lines 42-47 and 347-352): after embedding the HTML via
`components.html` — which returns nothing — the function returns its own
`slides` argument (defaulted when `None`).  No channel carries browser-side
edits back into this value. -/
def powerpointEditorReturn (slides : Option Presentation) : Presentation :=
  slides.getD pyDefaultSlides

/-! ### Export / import layer

`exportJSON` (`core.py`, lines 576-585) serializes `this.slides` with
`JSON.stringify`.  We model the JSON document tree that `stringify`
prints (and that `JSON.parse` recovers): the string layer is the inverse
pair of platform built-ins and is not modelled. -/

/-- A JSON value. -/
inductive Json where
  | null
  | bool (b : Bool)
  | num (n : Rat)
  | str (s : String)
  | arr (items : List Json)
  | obj (fields : List (String × Json))
  deriving Repr

/-- First value bound to key `k` in a JSON object's field list. -/
def getField (k : String) : List (String × Json) → Option Json
  | [] => none
  | (k1, v) :: rest => if k1 = k then some v else getField k rest

/-- A key that is present exactly when the optional string field is. -/
def optStr (k : String) : Option String → List (String × Json)
  | some s => [(k, Json.str s)]
  | none => []

/-- A key that is present exactly when the optional number field is. -/
def optNum (k : String) : Option Rat → List (String × Json)
  | some n => [(k, Json.num n)]
  | none => []

/-- A key that is present exactly when the optional boolean field is. -/
def optBool (k : String) : Option Bool → List (String × Json)
  | some b => [(k, Json.bool b)]
  | none => []

/-- The JSON object `JSON.stringify` prints for one element: the common
fields always, the variant fields exactly when the JavaScript object
carries the key. -/
def encodeElement (e : Element) : Json :=
  Json.obj
    ([("type", Json.str e.type), ("id", Json.str e.id),
      ("x", Json.num e.x), ("y", Json.num e.y),
      ("width", Json.num e.width), ("height", Json.num e.height)]
      ++ optStr "content" e.content
      ++ optNum "fontSize" e.fontSize
      ++ optStr "fontFamily" e.fontFamily
      ++ optStr "color" e.color
      ++ optBool "bold" e.bold
      ++ optBool "italic" e.italic
      ++ optBool "underline" e.underline
      ++ optStr "align" e.align
      ++ optStr "lineHeight" e.lineHeight
      ++ optStr "src" e.src
      ++ optStr "fit" e.fit
      ++ optStr "shape" e.shape
      ++ optStr "borderRadius" e.borderRadius)

/-- The JSON object `JSON.stringify` prints for one slide. -/
def encodeSlide (s : Slide) : Json :=
  Json.obj
    ([("id", Json.str s.id), ("title", Json.str s.title),
      ("elements", Json.arr (s.elements.map encodeElement)),
      ("background", Json.str s.background)]
      ++ optStr "transition" s.transition)

/-- `exportJSON` (`core.py`, lines 576-585): the JSON document of the
slide array (the source then pretty-prints it and triggers a download). -/
def exportJSON (slides : Presentation) : Json :=
  Json.arr (slides.map encodeSlide)

/-- Import failure taxonomy (spec §7). -/
inductive ImportError where
  | malformedDocument
  deriving DecidableEq, Repr

/-- The string field of a JSON value, `none` otherwise. -/
def asStr : Option Json → Option String
  | some (Json.str s) => some s
  | _ => none

/-- The number field of a JSON value, `none` otherwise. -/
def asNum : Option Json → Option Rat
  | some (Json.num n) => some n
  | _ => none

/-- The boolean field of a JSON value, `none` otherwise. -/
def asBool : Option Json → Option Bool
  | some (Json.bool b) => some b
  | _ => none

/-- String field with a default, JavaScript-style permissive read. -/
def asStrD (o : Option Json) (d : String) : String := (asStr o).getD d

/-- Number field with a default, JavaScript-style permissive read. -/
def asNumD (o : Option Json) (d : Rat) : Rat := (asNum o).getD d

/-- Modelled from the spec: the element read back by `importJSON`
(§4.6 / §3) — the parsed JSON object is taken as the element, reads being
permissive the way the editor's JavaScript reads element fields (missing or
ill-typed keys fall back to defaults rather than failing).  `importJSON`
itself is absent from `core.py`: only its click-handler call site exists
(line 61). -/
def decodeElement (j : Json) : Element :=
  let fs := match j with | Json.obj fs => fs | _ => []
  { type := asStrD (getField "type" fs) ""
    id := asStrD (getField "id" fs) ""
    x := asNumD (getField "x" fs) 0
    y := asNumD (getField "y" fs) 0
    width := asNumD (getField "width" fs) 0
    height := asNumD (getField "height" fs) 0
    content := asStr (getField "content" fs)
    fontSize := asNum (getField "fontSize" fs)
    fontFamily := asStr (getField "fontFamily" fs)
    color := asStr (getField "color" fs)
    bold := asBool (getField "bold" fs)
    italic := asBool (getField "italic" fs)
    underline := asBool (getField "underline" fs)
    align := asStr (getField "align" fs)
    lineHeight := asStr (getField "lineHeight" fs)
    src := asStr (getField "src" fs)
    fit := asStr (getField "fit" fs)
    shape := asStr (getField "shape" fs)
    borderRadius := asStr (getField "borderRadius" fs) }

/-- Modelled from the spec: whether a parsed slide value carries an
`elements` array — the per-slide schema check of `importJSON` (§4.6:
"fails with `MalformedDocument` ... if any slide lacks `elements`
array"). -/
def hasElementsArr (j : Json) : Bool :=
  match j with
  | Json.obj fs =>
      match getField "elements" fs with
      | some (Json.arr _) => true
      | _ => false
  | _ => false

/-- Modelled from the spec: the slide read back by `importJSON`, used once
`hasElementsArr` has passed; permissive field reads as in
`decodeElement`. -/
def decodeSlide (j : Json) : Slide :=
  let fs := match j with | Json.obj fs => fs | _ => []
  { id := asStrD (getField "id" fs) ""
    title := asStrD (getField "title" fs) ""
    elements :=
      match getField "elements" fs with
      | some (Json.arr items) => items.map decodeElement
      | _ => []
    background := asStrD (getField "background" fs) ""
    transition := asStr (getField "transition" fs) }

/-- Modelled from the spec: `importJSON` (§4.6) — parses (the string layer
being `JSON.parse`, inverse of `JSON.stringify`) and "fails with
`MalformedDocument` if not an array, or if any slide lacks `elements`
array"; otherwise the parsed document is the new presentation.
`importJSON` is missing from `core.py` (only the `ppt-import-json` click
handler at line 61 refers to it). -/
def importJSON (j : Json) : Except ImportError Presentation :=
  match j with
  | Json.arr items =>
      if items.all hasElementsArr then Except.ok (items.map decodeSlide)
      else Except.error ImportError.malformedDocument
  | _ => Except.error ImportError.malformedDocument

/-! ### History well-formedness and a concrete mutation scenario -/

/-- Well-formedness of the history stack: non-empty, with the index inside
its bounds.  Holds from the end of `init` on (see `history_index_invariant`
below). -/
def historyInv (st : EditorState) : Prop :=
  st.history ≠ [] ∧ 0 ≤ st.historyIndex ∧
    st.historyIndex ≤ (st.history.length : Int) - 1

instance (st : EditorState) : Decidable (historyInv st) := by
  unfold historyInv
  infer_instance

/-- Distinguishable presentation values for the mutation scenarios (the
slide content is irrelevant; only that the versions differ matters). -/
def demoSlides (k : Nat) : Presentation :=
  [{ id := "slide_1", title := "version " ++ toString k, elements := [],
     background := "#ffffff", transition := some "fade" }]

/-- A completed mutation in the sense of the history manager: the slides
change and the mutation's handler ends with `this.saveState()` (as every
mutating handler in `core.py` does). -/
def demoMut (k : Nat) (st : EditorState) : EditorState :=
  saveState { st with slides := demoSlides k }

/-- Scenario start: editor initialized on version 0. -/
def demoStart : EditorState := editorInit (some (demoSlides 0))

/-- Scenario: three mutations, then two undos. -/
def demoUndone : EditorState :=
  undo (undo (demoMut 3 (demoMut 2 (demoMut 1 demoStart))))

/-- Scenario: the new (fourth) mutation performed after the two undos. -/
def demoFinal : EditorState := demoMut 4 demoUndone

/-! ## Theorems -/

/-- `saveState` never changes the slides themselves. -/
theorem saveState_slides (st : EditorState) : (saveState st).slides = st.slides := by
  simp only [saveState]
  split <;> rfl

/-- `saveState` never changes the current-slide pointer. -/
theorem saveState_currentSlide (st : EditorState) :
    (saveState st).currentSlide = st.currentSlide := by
  simp only [saveState]
  split <;> rfl

/-- Claim C1: dragging is zoom-invariant and clamped — after any sequence of
`mousemove` events ending at `pointerNow = (px, py)`, with gesture-start
element position `(x0, y0)` and gesture-start pointer `(sx, sy)`, the
element sits at `(max 0 (x0 + (px-sx)/zoom), max 0 (y0 + (py-sy)/zoom))`;
earlier moves of the gesture leave no trace (the start position is captured
once, not read live), and whenever the clamp is inactive the element-space
displacement is exactly the screen delta divided by the zoom level. -/
theorem drag_zoom_invariant_clamped (x0 y0 sx sy px py zoom : Rat)
    (ms : List Pt) (hz : 0 < zoom) :
    dragGesture ⟨x0, y0⟩ ⟨sx, sy⟩ zoom (ms ++ [⟨px, py⟩]) =
        ⟨max 0 (x0 + (px - sx) / zoom), max 0 (y0 + (py - sy) / zoom)⟩ ∧
      (0 ≤ x0 + (px - sx) / zoom →
        (dragGesture ⟨x0, y0⟩ ⟨sx, sy⟩ zoom (ms ++ [⟨px, py⟩])).x - x0 =
          (px - sx) / zoom) ∧
      (0 ≤ y0 + (py - sy) / zoom →
        (dragGesture ⟨x0, y0⟩ ⟨sx, sy⟩ zoom (ms ++ [⟨px, py⟩])).y - y0 =
          (py - sy) / zoom) := by
  have hg : dragGesture ⟨x0, y0⟩ ⟨sx, sy⟩ zoom (ms ++ [⟨px, py⟩]) =
      ⟨max 0 (x0 + (px - sx) / zoom), max 0 (y0 + (py - sy) / zoom)⟩ := by
    unfold dragGesture
    rw [List.foldl_append]
    rfl
  refine ⟨hg, fun hx => ?_, fun hy => ?_⟩
  · rw [hg]
    show max 0 (x0 + (px - sx) / zoom) - x0 = (px - sx) / zoom
    rw [max_eq_right hx]
    ring
  · rw [hg]
    show max 0 (y0 + (py - sy) / zoom) - y0 = (py - sy) / zoom
    rw [max_eq_right hy]
    ring

/-- Witness for C1: the spec's §8 scenario — screen delta (24, 12) at zoom
2 moves the element from (5, 5) by exactly (12, 6). -/
theorem drag_zoom_invariant_clamped_w :
    0 < (2 : Rat) ∧
      dragGesture ⟨5, 5⟩ ⟨0, 0⟩ 2 ([] ++ [⟨24, 12⟩]) =
        ⟨max 0 (5 + (24 - 0) / 2), max 0 (5 + (12 - 0) / 2)⟩ :=
  ⟨by norm_num, (drag_zoom_invariant_clamped 5 5 0 0 24 12 2 [] (by norm_num)).1⟩

/-- Evaluation of `handleResize` at the `n` handle. -/
theorem handleResize_n (dx dy : Rat) (g : Geom) :
    handleResize "n" dx dy g =
      ⟨max 0 g.x, max 0 (g.y + dy), g.width, max 20 (g.height - dy)⟩ := by
  unfold handleResize
  simp [show ("n".toList.contains 'e') = false from by decide,
    show ("n".toList.contains 'w') = false from by decide,
    show ("n".toList.contains 's') = false from by decide,
    show ("n".toList.contains 'n') = true from by decide]

/-- Evaluation of `handleResize` at the `s` handle. -/
theorem handleResize_s (dx dy : Rat) (g : Geom) :
    handleResize "s" dx dy g =
      ⟨max 0 g.x, max 0 g.y, g.width, max 20 (g.height + dy)⟩ := by
  unfold handleResize
  simp [show ("s".toList.contains 'e') = false from by decide,
    show ("s".toList.contains 'w') = false from by decide,
    show ("s".toList.contains 's') = true from by decide,
    show ("s".toList.contains 'n') = false from by decide]

/-- Evaluation of `handleResize` at the `e` handle. -/
theorem handleResize_e (dx dy : Rat) (g : Geom) :
    handleResize "e" dx dy g =
      ⟨max 0 g.x, max 0 g.y, max 20 (g.width + dx), g.height⟩ := by
  unfold handleResize
  simp [show ("e".toList.contains 'e') = true from by decide,
    show ("e".toList.contains 'w') = false from by decide,
    show ("e".toList.contains 's') = false from by decide,
    show ("e".toList.contains 'n') = false from by decide]

/-- Evaluation of `handleResize` at the `w` handle. -/
theorem handleResize_w (dx dy : Rat) (g : Geom) :
    handleResize "w" dx dy g =
      ⟨max 0 (g.x + dx), max 0 g.y, max 20 (g.width - dx), g.height⟩ := by
  unfold handleResize
  simp [show ("w".toList.contains 'e') = false from by decide,
    show ("w".toList.contains 'w') = true from by decide,
    show ("w".toList.contains 's') = false from by decide,
    show ("w".toList.contains 'n') = false from by decide]

/-- Evaluation of `handleResize` at the `ne` handle. -/
theorem handleResize_ne (dx dy : Rat) (g : Geom) :
    handleResize "ne" dx dy g =
      ⟨max 0 g.x, max 0 (g.y + dy), max 20 (g.width + dx), max 20 (g.height - dy)⟩ := by
  unfold handleResize
  simp [show ("ne".toList.contains 'e') = true from by decide,
    show ("ne".toList.contains 'w') = false from by decide,
    show ("ne".toList.contains 's') = false from by decide,
    show ("ne".toList.contains 'n') = true from by decide]

/-- Evaluation of `handleResize` at the `nw` handle. -/
theorem handleResize_nw (dx dy : Rat) (g : Geom) :
    handleResize "nw" dx dy g =
      ⟨max 0 (g.x + dx), max 0 (g.y + dy), max 20 (g.width - dx),
        max 20 (g.height - dy)⟩ := by
  unfold handleResize
  simp [show ("nw".toList.contains 'e') = false from by decide,
    show ("nw".toList.contains 'w') = true from by decide,
    show ("nw".toList.contains 's') = false from by decide,
    show ("nw".toList.contains 'n') = true from by decide]

/-- Evaluation of `handleResize` at the `se` handle. -/
theorem handleResize_se (dx dy : Rat) (g : Geom) :
    handleResize "se" dx dy g =
      ⟨max 0 g.x, max 0 g.y, max 20 (g.width + dx), max 20 (g.height + dy)⟩ := by
  unfold handleResize
  simp [show ("se".toList.contains 'e') = true from by decide,
    show ("se".toList.contains 'w') = false from by decide,
    show ("se".toList.contains 's') = true from by decide,
    show ("se".toList.contains 'n') = false from by decide]

/-- Evaluation of `handleResize` at the `sw` handle. -/
theorem handleResize_sw (dx dy : Rat) (g : Geom) :
    handleResize "sw" dx dy g =
      ⟨max 0 (g.x + dx), max 0 g.y, max 20 (g.width - dx), max 20 (g.height + dy)⟩ := by
  unfold handleResize
  simp [show ("sw".toList.contains 'e') = false from by decide,
    show ("sw".toList.contains 'w') = true from by decide,
    show ("sw".toList.contains 's') = true from by decide,
    show ("sw".toList.contains 'n') = false from by decide]

/-- Claim C4: resize semantics — for each of the 8 handle directions each
axis is updated independently from the gesture-start geometry (east edges
grow the width by `dx`; west edges grow it by `-dx` and shift `x` by `dx`;
south edges grow the height by `dy`; north edges grow it by `-dy` and shift
`y` by `dy`); the recomputed width/height are floored at 20, the position
at 0 on both axes, for arbitrary pointer travel. -/
theorem resize_semantics (d : String)
    (hd : d ∈ ["n", "s", "e", "w", "ne", "nw", "se", "sw"])
    (g : Geom) (dx dy : Rat) :
    handleResize d dx dy g =
        { x := max 0 (if d ∈ ["w", "nw", "sw"] then g.x + dx else g.x)
          y := max 0 (if d ∈ ["n", "ne", "nw"] then g.y + dy else g.y)
          width :=
            if d ∈ ["e", "ne", "se"] then max 20 (g.width + dx)
            else if d ∈ ["w", "nw", "sw"] then max 20 (g.width - dx)
            else g.width
          height :=
            if d ∈ ["s", "se", "sw"] then max 20 (g.height + dy)
            else if d ∈ ["n", "ne", "nw"] then max 20 (g.height - dy)
            else g.height } ∧
      0 ≤ (handleResize d dx dy g).x ∧ 0 ≤ (handleResize d dx dy g).y ∧
      (20 ≤ g.width → 20 ≤ (handleResize d dx dy g).width) ∧
      (20 ≤ g.height → 20 ≤ (handleResize d dx dy g).height) := by
  fin_cases hd <;>
    simp [handleResize_n, handleResize_s, handleResize_e, handleResize_w,
      handleResize_ne, handleResize_nw, handleResize_se, handleResize_sw,
      le_max_iff]

/-- Witness for C4: the north-east handle with deltas (5, -3) grows the
element and respects the floors. -/
theorem resize_semantics_w :
    ("ne" ∈ ["n", "s", "e", "w", "ne", "nw", "se", "sw"]) ∧
      20 ≤ (handleResize "ne" 5 (-3) ⟨7, 8, 30, 40⟩).width :=
  ⟨by decide,
    (resize_semantics "ne" (by decide) ⟨7, 8, 30, 40⟩ 5 (-3)).2.2.2.1 (by norm_num)⟩

/-- `removeSlide` is rejected whenever at most one slide remains. -/
theorem removeSlide_of_le (st : EditorState) (h : st.slides.length ≤ 1) :
    removeSlide st = st := by
  rw [removeSlide, if_pos h]

/-- Iterating `removeSlide` from a state with a valid current index: each
step removes one slide until a single slide remains. -/
theorem removeSlide_iterate_length (n : Nat) :
    ∀ st : EditorState, 1 ≤ st.slides.length →
      st.currentSlide < st.slides.length →
      ((removeSlide)^[n] st).slides.length = max 1 (st.slides.length - n) := by
  induction n with
  | zero =>
      intro st h1 _
      simp only [Function.iterate_zero, id]
      omega
  | succ n ih =>
      intro st h1 hc
      rw [Function.iterate_succ_apply]
      by_cases hl : st.slides.length ≤ 1
      · rw [removeSlide_of_le st hl, ih st h1 hc]
        omega
      · have hne : ¬ st.slides.length ≤ 1 := hl
        have hrs : (removeSlide st).slides = st.slides.eraseIdx st.currentSlide := by
          rw [removeSlide, if_neg hne, saveState_slides]
        have hrc : (removeSlide st).currentSlide = st.currentSlide - 1 := by
          rw [removeSlide, if_neg hne, saveState_currentSlide]
        have hlen : (removeSlide st).slides.length = st.slides.length - 1 := by
          rw [hrs, List.length_eraseIdx, if_pos hc]
        have h1x : 1 ≤ (removeSlide st).slides.length := by omega
        have hcx : (removeSlide st).currentSlide < (removeSlide st).slides.length := by
          rw [hrc, hlen]; omega
        rw [ih (removeSlide st) h1x hcx, hlen]
        omega

/-- Claim C5: last-slide protection — `removeSlide` on a single-slide
presentation is rejected with the whole editor state (slides, pointer,
history) unchanged; with more than one slide it removes the slide at the
current index and moves the pointer to `max(0, index - 1)`; and from `n`
slides (valid current index), `n` consecutive `removeSlide` calls leave
exactly one slide. -/
theorem remove_slide_last_protected :
    (∀ st : EditorState, st.slides.length = 1 → removeSlide st = st) ∧
      (∀ st : EditorState, 1 < st.slides.length →
        (removeSlide st).slides = st.slides.eraseIdx st.currentSlide ∧
          (removeSlide st).currentSlide = st.currentSlide - 1) ∧
      (∀ (st : EditorState) (n : Nat), st.slides.length = n → 1 ≤ n →
        st.currentSlide < n → ((removeSlide)^[n] st).slides.length = 1) := by
  refine ⟨fun st h => removeSlide_of_le st (by omega), fun st h => ?_, fun st n hn h1 hc => ?_⟩
  · have hne : ¬ st.slides.length ≤ 1 := by omega
    constructor
    · rw [removeSlide, if_neg hne, saveState_slides]
    · rw [removeSlide, if_neg hne, saveState_currentSlide]
  · rw [removeSlide_iterate_length n st (by omega) (by omega)]
    omega

/-- Witness for C5: from two slides, two `removeSlide` calls leave one. -/
theorem remove_slide_last_protected_w :
    (editorInit (some (demoSlides 0 ++ demoSlides 1))).slides.length = 2 ∧
      ((removeSlide)^[2] (editorInit (some (demoSlides 0 ++ demoSlides 1)))).slides.length = 1 :=
  ⟨by decide,
    remove_slide_last_protected.2.2 (editorInit (some (demoSlides 0 ++ demoSlides 1))) 2
      (by decide) (by decide) (by decide)⟩

/-- Claim C3: linear-undo truncation — a completed mutation's `saveState`
discards every history entry after the current index, appends the new
snapshot and increments the index (stated away from the 50-entry cap); and
in the concrete scenario of three mutations, two undos and a new mutation,
`redo` is a no-op and a single `undo` restores the slides that held
immediately before the new mutation. -/
theorem history_truncation (st : EditorState) (hlen : st.history.length ≤ 49) :
    ((saveState st).history =
        st.history.take (st.historyIndex + 1).toNat ++ [st.slides] ∧
      (saveState st).historyIndex = st.historyIndex + 1) ∧
      redo demoFinal = demoFinal ∧ (undo demoFinal).slides = demoUndone.slides := by
  constructor
  · have hno : ¬ (st.history.take (st.historyIndex + 1).toNat ++ [st.slides]).length > 50 := by
      rw [List.length_append, List.length_take, List.length_singleton]
      have : (st.historyIndex + 1).toNat ⊓ st.history.length ≤ st.history.length :=
        min_le_right _ _
      omega
    simp only [saveState]
    rw [if_neg hno]
    exact ⟨rfl, rfl⟩
  · exact ⟨by decide, by decide⟩

/-- Witness for C3: the scenario start state has a short history, and its
next snapshot increments the index. -/
theorem history_truncation_w :
    demoStart.history.length ≤ 49 ∧
      (saveState demoStart).historyIndex = demoStart.historyIndex + 1 :=
  ⟨by decide, (history_truncation demoStart (by decide)).1.2⟩

/-- `saveState` maps well-formed histories to well-formed histories and
always lands with the index on the last (new) entry. -/
theorem saveState_inv (st : EditorState) (h : historyInv st) :
    historyInv (saveState st) ∧
      (saveState st).historyIndex = ((saveState st).history.length : Int) - 1 := by
  obtain ⟨hne, h0, hub⟩ := h
  have hlen1 : 0 < st.history.length := List.length_pos.mpr hne
  simp only [saveState]
  have htl : (st.history.take (st.historyIndex + 1).toNat).length =
      (st.historyIndex + 1).toNat := by
    rw [List.length_take]
    omega
  split
  · rename_i hgt
    rw [List.length_append, htl, List.length_singleton] at hgt
    simp only [historyInv]
    refine ⟨⟨?_, by omega, ?_⟩, ?_⟩
    · apply List.length_pos.mp
      simp only [List.length_drop, List.length_append, htl, List.length_singleton]
      omega
    · simp only [List.length_drop, List.length_append, htl, List.length_singleton]
      omega
    · simp only [List.length_drop, List.length_append, htl, List.length_singleton]
      omega
  · rename_i hgt
    rw [List.length_append, htl, List.length_singleton] at hgt
    simp only [historyInv]
    refine ⟨⟨by simp, by omega, ?_⟩, ?_⟩
    · simp only [List.length_append, htl, List.length_singleton]
      omega
    · simp only [List.length_append, htl, List.length_singleton]
      omega

/-- `undo` preserves history well-formedness. -/
theorem undo_inv (st : EditorState) (h : historyInv st) : historyInv (undo st) := by
  obtain ⟨hne, h0, hub⟩ := h
  unfold undo
  split
  · refine ⟨hne, ?_, ?_⟩ <;> dsimp only <;> omega
  · exact ⟨hne, h0, hub⟩

/-- `redo` preserves history well-formedness. -/
theorem redo_inv (st : EditorState) (h : historyInv st) : historyInv (redo st) := by
  obtain ⟨hne, h0, hub⟩ := h
  unfold redo
  split
  · rename_i hlt
    refine ⟨hne, ?_, ?_⟩ <;> dsimp only <;> omega
  · exact ⟨hne, h0, hub⟩

/-- Claim C10: history index well-formedness — from the end of editor
initialization on, the history stack is non-empty with
`0 ≤ historyIndex ≤ history.length - 1`; `saveState` (including its
50-entry eviction branch), `undo` and `redo` all preserve this, and right
after any `saveState` the index points at the last entry. -/
theorem history_index_invariant :
    (∀ s, historyInv (editorInit s)) ∧
      ∀ st : EditorState, historyInv st →
        historyInv (saveState st) ∧ historyInv (undo st) ∧ historyInv (redo st) ∧
          (saveState st).historyIndex = ((saveState st).history.length : Int) - 1 := by
  constructor
  · intro s
    refine ⟨?_, ?_, ?_⟩ <;> norm_num [editorInit, saveState, historyInv]
  · intro st h
    exact ⟨(saveState_inv st h).1, undo_inv st h, redo_inv st h, (saveState_inv st h).2⟩

/-- Witness for C10: the scenario start state is well-formed and stays so
after a snapshot. -/
theorem history_index_invariant_w :
    historyInv demoStart ∧ historyInv (saveState demoStart) :=
  ⟨by decide, (history_index_invariant.2 demoStart (by decide)).1⟩

/-- Field lookup distributes over concatenated field lists. -/
theorem getField_append (k : String) (l1 l2 : List (String × Json)) :
    getField k (l1 ++ l2) = (getField k l1).or (getField k l2) := by
  induction l1 with
  | nil => simp [getField]
  | cons hd tl ih =>
      simp only [List.cons_append, getField]
      split <;> simp [ih]

/-- Field lookup on an optional-string key. -/
theorem getField_optStr (k k1 : String) (o : Option String) :
    getField k (optStr k1 o) = if k1 = k then o.map Json.str else none := by
  cases o with
  | none => simp [optStr, getField]
  | some s => simp [optStr, getField]

/-- Field lookup on an optional-number key. -/
theorem getField_optNum (k k1 : String) (o : Option Rat) :
    getField k (optNum k1 o) = if k1 = k then o.map Json.num else none := by
  cases o with
  | none => simp [optNum, getField]
  | some n => simp [optNum, getField]

/-- Field lookup on an optional-boolean key. -/
theorem getField_optBool (k k1 : String) (o : Option Bool) :
    getField k (optBool k1 o) = if k1 = k then o.map Json.bool else none := by
  cases o with
  | none => simp [optBool, getField]
  | some b => simp [optBool, getField]

/-- Reading back an optionally-encoded string field. -/
theorem asStr_map (o : Option String) : asStr (o.map Json.str) = o := by
  cases o <;> simp [asStr]

/-- Reading back an optionally-encoded number field. -/
theorem asNum_map (o : Option Rat) : asNum (o.map Json.num) = o := by
  cases o <;> simp [asNum]

/-- Reading back an optionally-encoded boolean field. -/
theorem asBool_map (o : Option Bool) : asBool (o.map Json.bool) = o := by
  cases o <;> simp [asBool]

/-- Reading back a required string field. -/
theorem asStr_some_str (s : String) : asStr (some (Json.str s)) = some s := rfl

/-- Reading back a required number field. -/
theorem asNum_some_num (n : Rat) : asNum (some (Json.num n)) = some n := rfl

set_option maxHeartbeats 2000000 in
/-- Decoding inverts encoding on one element. -/
theorem decode_encode_element (e : Element) : decodeElement (encodeElement e) = e := by
  simp [decodeElement, encodeElement, getField_append, getField_optStr,
    getField_optNum, getField_optBool, asStr_map, asNum_map, asBool_map,
    asStrD, asNumD, getField, asStr_some_str, asNum_some_num]

/-- Decoding inverts encoding on an element list. -/
theorem decode_encode_elements (es : List Element) :
    List.map (decodeElement ∘ encodeElement) es = es := by
  induction es with
  | nil => simp
  | cons e tl ih => simp [decode_encode_element, ih]

/-- Every exported slide carries an `elements` array. -/
theorem hasElementsArr_encodeSlide (s : Slide) :
    hasElementsArr (encodeSlide s) = true := by
  simp [hasElementsArr, encodeSlide, getField]

/-- Decoding inverts encoding on one slide. -/
theorem decode_encode_slide (s : Slide) : decodeSlide (encodeSlide s) = s := by
  simp [decodeSlide, encodeSlide, getField_append, getField_optStr,
    asStr_map, asStrD, getField, asStr_some_str, decode_encode_elements]

/-- Decoding inverts encoding on a slide list. -/
theorem decode_encode_slides (p : Presentation) :
    (p.map encodeSlide).map decodeSlide = p := by
  induction p with
  | nil => simp
  | cons s tl ih => simp [decode_encode_slide, ih]

/-- Claim C2: export/import round-trip — importing an exported presentation
succeeds and returns it unchanged (deep structural equality), and
`importJSON` fails with `MalformedDocument` exactly when the document is
not an array or some slide of it lacks an `elements` array. -/
theorem import_export_round_trip :
    (∀ p : Presentation, importJSON (exportJSON p) = Except.ok p) ∧
      ∀ j : Json, importJSON j = Except.error ImportError.malformedDocument ↔
        ¬∃ items, j = Json.arr items ∧ ∀ s ∈ items, hasElementsArr s = true := by
  constructor
  · intro p
    have hall : (p.map encodeSlide).all hasElementsArr = true := by
      rw [List.all_eq_true]
      intro x hx
      obtain ⟨s, _, rfl⟩ := List.mem_map.mp hx
      exact hasElementsArr_encodeSlide s
    simp only [exportJSON, importJSON]
    rw [if_pos hall, decode_encode_slides]
  · intro j
    cases j with
    | arr items =>
        by_cases hall : items.all hasElementsArr = true
        · rw [importJSON, if_pos hall]
          have hf : ∀ s ∈ items, hasElementsArr s = true := List.all_eq_true.mp hall
          refine ⟨fun h => by simp at h, fun h => absurd ⟨items, rfl, hf⟩ h⟩
        · rw [importJSON, if_neg hall]
          constructor
          · intro _
            rintro ⟨items2, heq, hf⟩
            injection heq with h2
            subst h2
            exact hall (List.all_eq_true.mpr hf)
          · intro _
            rfl
    | null => simp [importJSON]
    | bool b => simp [importJSON]
    | num n => simp [importJSON]
    | str s => simp [importJSON]
    | obj fs => simp [importJSON]

/-- Counterexample for C6: invoked with no initial slides, and with the
browser session performing one `addSlide` edit, the value
`powerpoint_editor` returns differs from the current (edited) presentation
— `components.html` carries nothing back, the function returns its input. -/
theorem host_return_not_edited_cex :
    powerpointEditorReturn none ≠ (pyAddSlide (pyInit none)).slides := by
  decide

/-- Claim C6 (amended): the value `powerpoint_editor` returns across the
component boundary is the initial slide list it was called with (the
default single-slide presentation when `None`), unchanged — edits made in
the embedded editor session are not propagated into it. -/
theorem host_return_initial :
    (∀ s : Presentation, powerpointEditorReturn (some s) = s) ∧
      powerpointEditorReturn none = pyDefaultSlides :=
  ⟨fun _ => rfl, rfl⟩

/-- Counterexample for C9: a reachable interleaving (add slide, select the
first thumbnail, remove it, add slide again) makes `addSlide` generate the
id `slide_2` while a slide with id `slide_2` is already present — slide ids
do not remain pairwise unique. -/
theorem add_slide_id_collision_cex :
    ((pyAddSlide (pyRemoveSlide (pySelectSlide 0 (pyAddSlide (pyInit none))))).slides.map
        Slide.id) = ["slide_2", "slide_2"] ∧
      ¬ ((pyAddSlide (pyRemoveSlide (pySelectSlide 0 (pyAddSlide (pyInit none))))).slides.map
          Slide.id).Nodup := by
  decide

/-- Claim C9 (amended): `addSlide` always appends exactly one slide and
selects it; in the `powerpoint.py` editor the generated id is
`'slide_' + (slide count + 1)` — derived from the count, never checked
against the ids already present, so after removals it can collide with an
existing id (see the counterexample) — and in the `core.py` editor the id
is `'slide_' + generateId()` with a random suffix, likewise unchecked. -/
theorem add_slide_append :
    (∀ st : PyState,
        (pyAddSlide st).slides = st.slides ++ [pyNewSlide st] ∧
          (pyNewSlide st).id = "slide_" ++ toString (st.slides.length + 1) ∧
          (pyAddSlide st).currentSlide = st.slides.length) ∧
      ∀ (fresh : String) (st : EditorState),
        (addSlide fresh st).slides =
          st.slides ++ [{ id := "slide_" ++ fresh,
                          title := "Slide " ++ toString (st.slides.length + 1),
                          elements := [], background := "#ffffff",
                          transition := some "fade" }] := by
  constructor
  · intro st
    exact ⟨rfl, rfl, rfl⟩
  · intro fresh st
    simp [addSlide, selectSlide, clearSelection, saveState_slides]

/-- Counterexample for C7: a `Backspace` keydown with an element selected
(and no text being edited — the source has no text-editing mode at all)
leaves the state unchanged, although deleting the selected element would
change it; the claimed Delete-or-Backspace deletion does not hold for
Backspace. -/
theorem keyboard_backspace_cex :
    handleKeyboardShortcuts "f1" ⟨"Backspace", false, false, false⟩
        (selectElement "text_1" (editorInit none)) =
      selectElement "text_1" (editorInit none) ∧
      deleteSelectedElement (selectElement "text_1" (editorInit none)) ≠
        selectElement "text_1" (editorInit none) := by
  decide

/-- Claim C7 (amended): on every keydown, regardless of any text-editing
state (the source has no such guard — `enterTextEditMode` is never
defined), Ctrl/Cmd plus lowercase `z` / `y` / `c` / `v` dispatch undo /
redo / copy-selected / paste; a plain `Delete` performs delete-selected
(a no-op without a selection); `Backspace` is not handled; and
Ctrl/Cmd+Shift+Z arrives with `key = "Z"`, which matches no case, so it
does not trigger redo (only Ctrl/Cmd+Y does). -/
theorem keyboard_shortcuts_map (fresh : String) (st : EditorState) :
    handleKeyboardShortcuts fresh ⟨"z", true, false, false⟩ st = undo st ∧
      handleKeyboardShortcuts fresh ⟨"z", false, true, false⟩ st = undo st ∧
      handleKeyboardShortcuts fresh ⟨"y", true, false, false⟩ st = redo st ∧
      handleKeyboardShortcuts fresh ⟨"y", false, true, false⟩ st = redo st ∧
      handleKeyboardShortcuts fresh ⟨"c", true, false, false⟩ st = copySelected st ∧
      handleKeyboardShortcuts fresh ⟨"c", false, true, false⟩ st = copySelected st ∧
      handleKeyboardShortcuts fresh ⟨"v", true, false, false⟩ st = pasteClipboard fresh st ∧
      handleKeyboardShortcuts fresh ⟨"v", false, true, false⟩ st = pasteClipboard fresh st ∧
      handleKeyboardShortcuts fresh ⟨"Delete", false, false, false⟩ st =
        deleteSelectedElement st ∧
      handleKeyboardShortcuts fresh ⟨"Backspace", false, false, false⟩ st = st ∧
      handleKeyboardShortcuts fresh ⟨"Z", true, false, true⟩ st = st := by
  refine ⟨rfl, rfl, rfl, rfl, rfl, rfl, rfl, rfl, ?_, rfl, rfl⟩
  cases h : st.selectedElement <;>
    simp [handleKeyboardShortcuts, deleteSelectedElement, h]

/-- Renaming ids does not change how many elements there are. -/
theorem renameElems_length (gen : Nat → String) :
    ∀ (k : Nat) (l : List Element), (renameElems gen k l).length = l.length := by
  intro k l
  induction l generalizing k with
  | nil => rfl
  | cons e tl ih => simp [renameElems, ih]

/-- The element at offset `i` of the renamed list is the original element
with only its id replaced (by the `k + i`-th generated id). -/
theorem renameElems_getD (gen : Nat → String) :
    ∀ (l : List Element) (k i : Nat), i < l.length →
      (renameElems gen k l).getD i dummyElement =
        { l.getD i dummyElement with
            id := (l.getD i dummyElement).type ++ "_" ++ gen (k + i) } := by
  intro l
  induction l with
  | nil =>
      intro k i h
      simp at h
  | cons e tl ih =>
      intro k i h
      cases i with
      | zero => simp [renameElems]
      | succ i =>
          have hstep : k + 1 + i = k + (i + 1) := by omega
          simp only [renameElems, List.getD_cons_succ]
          rw [ih (k + 1) i (by simpa using h), hstep]

/-- Counterexample for C8: the duplicate is not structurally equal to the
original outside the ids — `duplicateSlide` also rewrites the title,
appending `' (Copy)'`. -/
theorem duplicate_title_cex :
    ((duplicateSlide (fun n => toString n) (editorInit none)).slides.getD 1
          dummySlide).title ≠
      ((editorInit none).slides.getD 0 dummySlide).title := by
  decide

/-- Claim C8 (amended): for a valid current index, `duplicateSlide` inserts
immediately after it a deep copy of the current slide that differs from the
original exactly in the slide id (`'slide_' + gen 0`), in the element ids
(element `i` gets `type + '_' + gen (i+1)`, all other element fields kept),
and in the title, which gains a `' (Copy)'` suffix; and provided the
generated ids are pairwise distinct and occur nowhere in the presentation —
which the random `generateId()` makes likely but does not guarantee — all
ids in the result remain pairwise distinct. -/
theorem duplicate_slide_amended (gen : Nat → String) (st : EditorState)
    (hcur : st.currentSlide < st.slides.length)
    (hnodup : (allIds st.slides).Nodup)
    (hdist : (slideIds (dupSlideOf gen st)).Nodup)
    (hfresh : ∀ x ∈ slideIds (dupSlideOf gen st), x ∉ allIds st.slides) :
    (duplicateSlide gen st).slides =
        st.slides.insertIdx (st.currentSlide + 1) (dupSlideOf gen st) ∧
      (dupSlideOf gen st).id = "slide_" ++ gen 0 ∧
      (dupSlideOf gen st).title =
        (st.slides.getD st.currentSlide dummySlide).title ++ " (Copy)" ∧
      (dupSlideOf gen st).background =
        (st.slides.getD st.currentSlide dummySlide).background ∧
      (dupSlideOf gen st).transition =
        (st.slides.getD st.currentSlide dummySlide).transition ∧
      (dupSlideOf gen st).elements.length =
        (st.slides.getD st.currentSlide dummySlide).elements.length ∧
      (∀ i, i < (st.slides.getD st.currentSlide dummySlide).elements.length →
        (dupSlideOf gen st).elements.getD i dummyElement =
          { (st.slides.getD st.currentSlide dummySlide).elements.getD i dummyElement with
              id := ((st.slides.getD st.currentSlide dummySlide).elements.getD i
                  dummyElement).type ++ "_" ++ gen (i + 1) }) ∧
      (allIds (duplicateSlide gen st).slides).Nodup := by
  have hslides : (duplicateSlide gen st).slides =
      st.slides.insertIdx (st.currentSlide + 1) (dupSlideOf gen st) := by
    simp [duplicateSlide, selectSlide, clearSelection, saveState_slides]
  refine ⟨hslides, rfl, rfl, rfl, rfl, renameElems_length gen 1 _, ?_, ?_⟩
  · intro i hi
    have h := renameElems_getD gen
      ((st.slides.getD st.currentSlide dummySlide).elements) 1 i hi
    rw [show (1 : Nat) + i = i + 1 from by omega] at h
    exact h
  · have hperm : (st.slides.insertIdx (st.currentSlide + 1) (dupSlideOf gen st)).Perm
        (dupSlideOf gen st :: st.slides) :=
      List.perm_insertIdx _ _ (by omega)
    have hperm2 : (allIds (st.slides.insertIdx (st.currentSlide + 1)
          (dupSlideOf gen st))).Perm (allIds (dupSlideOf gen st :: st.slides)) :=
      (hperm.map slideIds).flatten
    rw [hslides]
    apply hperm2.nodup_iff.mpr
    have hcons : allIds (dupSlideOf gen st :: st.slides) =
        slideIds (dupSlideOf gen st) ++ allIds st.slides := by
      simp [allIds]
    rw [hcons, List.nodup_append]
    exact ⟨hdist, hnodup, fun a ha hb => hfresh a ha hb⟩

/-- Witness for C8: duplicating the default slide with fresh generated ids
keeps all ids in the presentation pairwise distinct. -/
theorem duplicate_slide_amended_w :
    (editorInit none).currentSlide < (editorInit none).slides.length ∧
      (allIds (duplicateSlide (fun n => "g" ++ toString n)
          (editorInit none)).slides).Nodup :=
  ⟨by decide,
    (duplicate_slide_amended (fun n => "g" ++ toString n) (editorInit none)
        (by decide) (by decide) (by decide) (by decide)).2.2.2.2.2.2.2⟩

end Theta
